import Mathlib

/-
Verification of the gesture classification and action-dispatch engine of the
AWS_AI_Project repository (src/src/gesture/gesture_recognizer.py,
src/src/gesture/mouse_controller.py, src/src/gesture/thumb_gesture_recognizer.py).

Coordinates, distances and times are modelled over ℚ.  The Python code compares
Euclidean distances `np.sqrt(s) < t` against nonnegative thresholds `t`; since
`Real.sqrt s < t ↔ s < t*t` for `t ≥ 0`, every such comparison is embedded as the
equivalent squared comparison `s < t^2`, which keeps all definitions executable.
Likewise `(abs vy / np.sqrt m)**2 = vy^2 / m` is used to express the squared
vertical ratio of `_get_thumb_angle` without a square root.
-/

namespace GestureControl

/-- A single 3-D hand landmark, with x, y normalized to the camera frame and z a
relative depth (MediaPipe convention). -/
structure Point3 where
  x : ℚ
  y : ℚ
  z : ℚ
deriving DecidableEq

/-- A 21-point landmark set, index-addressed by anatomical landmark id
(wrist=0, thumb tip=4, index tip=8, middle tip=12, ring tip=16, pinky tip=20).
Modelled as a total function on indices; the code reads only indices 0–20. -/
def Landmarks : Type := Nat → Point3

/-- Squared Euclidean distance over the three coordinates, embedding
`np.sqrt(np.sum((p - q) ** 2))` squared. -/
def distSq (p q : Point3) : ℚ :=
  (p.x - q.x) ^ 2 + (p.y - q.y) ^ 2 + (p.z - q.z) ^ 2

/-- PINCH_THRESHOLD = 0.04 from config/settings.py. -/
def PINCH_THRESHOLD : ℚ := 4 / 100

/-- SCROLL_ANGLE_THRESHOLD = 0.15 from config/settings.py. -/
def SCROLL_ANGLE_THRESHOLD : ℚ := 15 / 100

/-- SCROLL_SENSITIVITY = 3 from config/settings.py. -/
def SCROLL_SENSITIVITY : ℚ := 3

/-- DOUBLE_CLICK_THRESHOLD = 0.4 from config/settings.py. -/
def DOUBLE_CLICK_THRESHOLD : ℚ := 4 / 10

/-- CLICK_HOLD_TIME = 0.1 from config/settings.py. -/
def CLICK_HOLD_TIME : ℚ := 1 / 10

/-- Gesture symbols produced by GestureRecognizer._classify_gesture.  The Python
code returns strings; the scroll case is the f-string "thumb_scroll:{angle}",
modelled here as a constructor carrying the angle payload. -/
inductive GestureType where
  | thumb_index_pinch : GestureType
  | thumb_middle_pinch : GestureType
  | thumb_scroll : ℚ → GestureType
  | fist : GestureType
  | open_hand : GestureType
  | cursor_point : GestureType
deriving DecidableEq

/-- thumb_up = positions[THUMB_TIP][1] < positions[THUMB_IP][1]. -/
def thumbUp (p : Landmarks) : Bool := decide ((p 4).y < (p 3).y)

/-- index_up = positions[INDEX_TIP][1] < positions[INDEX_PIP][1]. -/
def indexUp (p : Landmarks) : Bool := decide ((p 8).y < (p 6).y)

/-- middle_up = positions[MIDDLE_TIP][1] < positions[MIDDLE_PIP][1]. -/
def middleUp (p : Landmarks) : Bool := decide ((p 12).y < (p 10).y)

/-- ring_up = positions[RING_TIP][1] < positions[RING_PIP][1]. -/
def ringUp (p : Landmarks) : Bool := decide ((p 16).y < (p 14).y)

/-- pinky_up = positions[PINKY_TIP][1] < positions[PINKY_PIP][1]. -/
def pinkyUp (p : Landmarks) : Bool := decide ((p 20).y < (p 18).y)

/-- total_fingers = sum(fingers_up). -/
def totalFingers (p : Landmarks) : Nat :=
  [thumbUp p, indexUp p, middleUp p, ringUp p, pinkyUp p].count true

/-- GestureRecognizer._get_thumb_angle.  The thumb direction vector is
tip - mcp (landmarks 4 and 2); the guard `vector_magnitude < 0.01` is embedded
squared; `speed_factor = (abs(vy)/magnitude)**2 = vy^2/(vx^2+vy^2)`;
`np.clip(v, -1.0, 1.0) = max (-1) (min v 1)`. -/
def getThumbAngle (positions : Landmarks) : ℚ :=
  let tip := positions 4
  let mcp := positions 2
  let vx := tip.x - mcp.x
  let vy := tip.y - mcp.y
  let magSq := vx ^ 2 + vy ^ 2
  if magSq < (1 / 100) ^ 2 then 0
  else
    let speed_factor := vy ^ 2 / magSq
    let base_strength := vy * 8
    max (-1) (min (base_strength * speed_factor) 1)

/-- GestureRecognizer._classify_gesture: thumb-index pinch first, then
thumb-middle pinch, then the thumb-scroll test (only the thumb extended and a
significant angle), then the finger-count classification. -/
def classifyGesture (positions : Landmarks) : GestureType :=
  let thumb_pos := positions 4
  let index_pos := positions 8
  let middle_pos := positions 12
  if distSq thumb_pos index_pos < PINCH_THRESHOLD ^ 2 then
    GestureType.thumb_index_pinch
  else if distSq thumb_pos middle_pos < PINCH_THRESHOLD ^ 2 then
    GestureType.thumb_middle_pinch
  else if totalFingers positions = 1 ∧ thumbUp positions = true ∧
      SCROLL_ANGLE_THRESHOLD < |getThumbAngle positions| then
    GestureType.thumb_scroll (getThumbAngle positions)
  else if totalFingers positions = 0 then
    GestureType.fist
  else if totalFingers positions = 5 then
    GestureType.open_hand
  else
    GestureType.cursor_point

/-- Pointer actions sent to pyautogui by MouseController. -/
inductive Action where
  | mouseDown : Action
  | mouseUp : Action
  | moveTo : ℤ → ℤ → Action
  | doubleClick : Action
  | rightClick : Action
  | scroll : ℤ → Action
deriving DecidableEq

/-- Python `int()` applied to a rational: truncation toward zero. -/
def pyInt (q : ℚ) : ℤ := if 0 ≤ q then ⌊q⌋ else ⌈q⌉

/-- The mutable fields of MouseController touched by the modelled methods.
`screen_width`/`screen_height` come from `pyautogui.size()` at construction and
are never written afterwards.  Fields the modelled methods never read
(`last_double_click_time`, `click_count`, `last_gesture_time`, `gesture_buffer`)
are omitted. -/
structure MCState where
  screen_width : ℤ
  screen_height : ℤ
  mouse_enabled : Bool
  last_click_time : ℚ
  dragging : Bool
  pinch_dragging : Bool
  pinch_start_time : ℚ
deriving DecidableEq

/-- MouseController.__init__ state (mouse enabled, nothing pressed, all clocks 0). -/
def initState (w h : ℤ) : MCState :=
  { screen_width := w, screen_height := h, mouse_enabled := true,
    last_click_time := 0, dragging := false, pinch_dragging := false,
    pinch_start_time := 0 }

/-- MouseController.move_mouse: scale the normalized position to screen pixels
with `int()`, clamp to `[0, width-1]` and `[0, height-1]`, emit one moveTo. -/
def move_mouse (s : MCState) (position : Option (ℚ × ℚ)) : MCState × List Action :=
  match position with
  | none => (s, [])
  | some pos =>
    if s.mouse_enabled = false then (s, [])
    else
      let screen_x := pyInt (pos.1 * (s.screen_width : ℚ))
      let screen_y := pyInt (pos.2 * (s.screen_height : ℚ))
      let cx := max 0 (min screen_x (s.screen_width - 1))
      let cy := max 0 (min screen_y (s.screen_height - 1))
      (s, [Action.moveTo cx cy])

/-- MouseController.double_click (the later of the two definitions in the class
body, which is the one Python binds): emits doubleClick, updates no state. -/
def double_click (s : MCState) : MCState × List Action :=
  if s.mouse_enabled = false then (s, []) else (s, [Action.doubleClick])

/-- MouseController.handle_left_click_or_drag at clock value `now`. -/
def handle_left_click_or_drag (s : MCState) (now : ℚ)
    (mouse_pos : Option (ℚ × ℚ)) : MCState × List Action :=
  if s.mouse_enabled = false then (s, [])
  else if s.pinch_dragging = false then
    if now - s.last_click_time < DOUBLE_CLICK_THRESHOLD then
      double_click s
    else
      ({ s with pinch_start_time := now, pinch_dragging := true,
                last_click_time := now },
       [Action.mouseDown])
  else
    move_mouse s mouse_pos

/-- MouseController.end_pinch_drag at clock value `now` (the computed
drag_duration only selects a no-op branch and is dropped). -/
def end_pinch_drag (s : MCState) : MCState × List Action :=
  if s.pinch_dragging = true then
    ({ s with pinch_dragging := false, pinch_start_time := 0 }, [Action.mouseUp])
  else (s, [])

/-- MouseController.right_click at clock value `now` (its optional mouse_pos
argument is ignored by the body). -/
def right_click (s : MCState) (now : ℚ) : MCState × List Action :=
  if s.mouse_enabled = false then (s, [])
  else if CLICK_HOLD_TIME < now - s.last_click_time then
    ({ s with last_click_time := now }, [Action.rightClick])
  else (s, [])

/-- MouseController.handle_scroll: `scroll_speed = int(angle * SCROLL_SENSITIVITY * 2)`,
emitted as `scroll(-scroll_speed)` only when `abs(scroll_speed) >= 1`. -/
def handle_scroll (s : MCState) (angle : ℚ) : MCState × List Action :=
  if s.mouse_enabled = false then (s, [])
  else
    let scroll_speed := pyInt (angle * SCROLL_SENSITIVITY * 2)
    if 1 ≤ |scroll_speed| then (s, [Action.scroll (-scroll_speed)])
    else (s, [])

/-- MouseController.drag_start. -/
def drag_start (s : MCState) : MCState × List Action :=
  if s.mouse_enabled = false ∨ s.dragging = true then (s, [])
  else ({ s with dragging := true }, [Action.mouseDown])

/-- MouseController.drag_end. -/
def drag_end (s : MCState) : MCState × List Action :=
  if s.mouse_enabled = false ∨ s.dragging = false then (s, [])
  else ({ s with dragging := false }, [Action.mouseUp])

/-- MouseController.process_gesture: one dispatched frame.  `gesture_data` is
the `'type'` field of the recognizer's dict (None when no hand was detected),
`mouse_pos` the optional pointer position, `now` the clock.  The Python guard
`gesture_type != "thumb_index_pinch" and self.pinch_dragging` before the action
dispatch is unrolled into each match arm (it is vacuous in the
thumb_index_pinch arm, and the thumb_scroll branch returns before reaching it).
The cursor_point branch guards on `mouse_pos` before calling move_mouse; since
move_mouse on a missing position emits nothing, the two guards collapse. -/
def process_gesture (s : MCState) (now : ℚ) (gesture_data : Option GestureType)
    (mouse_pos : Option (ℚ × ℚ)) : MCState × List Action :=
  match gesture_data with
  | none =>
    if s.pinch_dragging = true then end_pinch_drag s else (s, [])
  | some gesture_type =>
    if s.mouse_enabled = false then
      if s.pinch_dragging = true then end_pinch_drag s else (s, [])
    else
      match gesture_type with
      | GestureType.thumb_scroll angle => handle_scroll s angle
      | GestureType.thumb_index_pinch => handle_left_click_or_drag s now mouse_pos
      | GestureType.thumb_middle_pinch =>
        let step1 := if s.pinch_dragging = true then end_pinch_drag s else (s, [])
        let step2 := right_click step1.1 now
        (step2.1, step1.2 ++ step2.2)
      | GestureType.fist =>
        let step1 := if s.pinch_dragging = true then end_pinch_drag s else (s, [])
        let step2 := drag_start step1.1
        (step2.1, step1.2 ++ step2.2)
      | GestureType.open_hand =>
        let step1 := if s.pinch_dragging = true then end_pinch_drag s else (s, [])
        let step2 := drag_end step1.1
        (step2.1, step1.2 ++ step2.2)
      | GestureType.cursor_point =>
        let step1 := if s.pinch_dragging = true then end_pinch_drag s else (s, [])
        let step2 := move_mouse step1.1 mouse_pos
        (step2.1, step1.2 ++ step2.2)

/-- One dispatched frame: clock value, classified gesture (None = no hand),
optional pointer position. -/
def Frame : Type := ℚ × Option GestureType × Option (ℚ × ℚ)

/-- Run the dispatcher over a finite frame sequence, collecting all emissions. -/
def run (s : MCState) : List Frame → MCState × List Action
  | [] => (s, [])
  | (now, gd, mp) :: rest =>
    let step := process_gesture s now gd mp
    let tail := run step.1 rest
    (tail.1, step.2 ++ tail.2)

/-- Number of ButtonDown (pyautogui.mouseDown) emissions in a run. -/
def countDown : List Action → Nat
  | [] => 0
  | a :: l => (if a = Action.mouseDown then 1 else 0) + countDown l

/-- Number of ButtonUp (pyautogui.mouseUp) emissions in a run. -/
def countUp : List Action → Nat
  | [] => 0
  | a :: l => (if a = Action.mouseUp then 1 else 0) + countUp l

/-- A dispatcher state as built by MouseController.__init__ on a 1920×1080 screen. -/
def mc0 : MCState := initState 1920 1080

/-- ThumbGestureRecognizer.touch_threshold = 0.06. -/
def touch_threshold : ℚ := 6 / 100

/-- ThumbGestureRecognizer.click_cooldown = 0.1. -/
def click_cooldown : ℚ := 1 / 10

/-- ThumbGestureRecognizer.double_click_threshold = 0.5. -/
def tg_double_click_threshold : ℚ := 1 / 2

/-- Gesture symbols returned by ThumbGestureRecognizer._classify_thumb_gesture. -/
inductive ThumbSymbol where
  | thumb_index_double_click : ThumbSymbol
  | thumb_index_click : ThumbSymbol
  | thumb_cursor : ThumbSymbol
  | idle : ThumbSymbol
deriving DecidableEq

/-- The mutable fields of ThumbGestureRecognizer read or written by
_classify_thumb_gesture (previous_thumb_index_distance is never read). -/
structure TGState where
  last_click_time : ℚ
  last_gesture_time : ℚ
  was_touching : Bool
deriving DecidableEq

/-- ThumbGestureRecognizer.__init__ state. -/
def tgInit : TGState :=
  { last_click_time := 0, last_gesture_time := 0, was_touching := false }

/-- ThumbGestureRecognizer._classify_thumb_gesture at clock value `now`.  The
touch test `np.sqrt(...) < self.touch_threshold` is embedded squared; a click
symbol is produced only on a not-touching → touching transition that also
passes the cooldown test, otherwise the frame falls through to the
thumb-extended cursor / idle classification. -/
def classify_thumb_gesture (st : TGState) (positions : Landmarks) (now : ℚ) :
    ThumbSymbol × TGState :=
  let thumb_tip := positions 4
  let index_tip := positions 8
  let thumb_mcp := positions 2
  let is_touching := decide (distSq thumb_tip index_tip < touch_threshold ^ 2)
  if is_touching = true ∧ st.was_touching = false ∧
      click_cooldown < now - st.last_gesture_time then
    if now - st.last_click_time < tg_double_click_threshold then
      (ThumbSymbol.thumb_index_double_click,
       { last_click_time := 0, last_gesture_time := now,
         was_touching := is_touching })
    else
      (ThumbSymbol.thumb_index_click,
       { last_click_time := now, last_gesture_time := now,
         was_touching := is_touching })
  else
    let st1 : TGState := { st with was_touching := is_touching }
    if (thumb_tip).y < (thumb_mcp).y then (ThumbSymbol.thumb_cursor, st1)
    else (ThumbSymbol.idle, st1)

/-- A degenerate landmark set with every landmark at the origin: all fingertips
coincide, so every pinch condition holds simultaneously. -/
def lm0 : Landmarks := fun _ => ⟨0, 0, 0⟩

/-- A landmark set whose thumb tip (4) and ring tip (16) coincide (a scroll
pinch in the spec's sense) while the thumb-index and thumb-middle distances are
large and exactly two fingers (index, ring) are extended. -/
def lmRingPinch : Landmarks := fun i =>
  if i = 4 then ⟨1/2, 1/2, 0⟩
  else if i = 16 then ⟨1/2, 1/2, 0⟩
  else if i = 8 then ⟨9/10, 2/10, 0⟩
  else if i = 12 then ⟨1/10, 9/10, 0⟩
  else if i = 3 then ⟨1/2, 4/10, 0⟩
  else if i = 6 then ⟨9/10, 1/2, 0⟩
  else if i = 10 then ⟨1/10, 1/2, 0⟩
  else if i = 14 then ⟨1/2, 8/10, 0⟩
  else if i = 18 then ⟨1/2, 1/2, 0⟩
  else if i = 20 then ⟨1/2, 6/10, 0⟩
  else ⟨1/2, 1/2, 0⟩

/-- A thumb-recognizer state one second after its last click and gesture,
not currently touching. -/
def tg1 : TGState :=
  { last_click_time := -1, last_gesture_time := -1, was_touching := false }

/-- Frame trace for the double-click analysis: an index pinch at t=1 (beyond
the double-click window from the initial clock 0), an open hand at t=1.1 ending
the pinch drag, then two further index pinches at t=1.2 and t=1.3, each within
the 0.4 s window of the press at t=1. -/
def c3frames : List Frame :=
  [(1, some GestureType.thumb_index_pinch, none),
   (11/10, some GestureType.open_hand, none),
   (12/10, some GestureType.thumb_index_pinch, none),
   (13/10, some GestureType.thumb_index_pinch, none)]

/-- Frame trace: a fist (drag start) at t=0, then tracking lost at t=1. -/
def c1frames : List Frame :=
  [(0, some GestureType.fist, none), (1, none, none)]

/-- Frame trace: a fist (drag start) at t=0, then an index pinch at t=1. -/
def c4frames : List Frame :=
  [(0, some GestureType.fist, none),
   (1, some GestureType.thumb_index_pinch, none)]

/-- Scroll emission formula as the spec words it: `Scroll(-round(v * scroll_sensitivity))`. -/
def specScrollDelta (v : ℚ) : ℤ := -round (v * SCROLL_SENSITIVITY)

/-- C1: the claim says that for every frame sequence ending with a no-hand
frame the number of ButtonDown emissions equals the number of ButtonUp
emissions.  The code violates this for the fist drag: on the trace
fist-then-Idle the dispatcher emits one mouseDown and no mouseUp, and its
dragging flag is still set after tracking is lost. -/
theorem C1_fist_drag_unreleased :
    countDown (run mc0 c1frames).2 = 1 ∧ countUp (run mc0 c1frames).2 = 0 ∧
    (run mc0 c1frames).1.dragging = true := by
  norm_num [run, process_gesture, drag_start, end_pinch_drag, mc0, initState,
    c1frames, countDown, countUp]
  all_goals decide

/-- C2: Pinch priority.  Whenever the thumb-tip/index-tip distance is below the
pinch threshold, classification returns thumb_index_pinch regardless of every
other landmark; and the thumb-middle check is evaluated only after the
thumb-index check fails, before all other classification rules. -/
theorem C2_pinch_priority (p : Landmarks) :
    (distSq (p 4) (p 8) < PINCH_THRESHOLD ^ 2 →
      classifyGesture p = GestureType.thumb_index_pinch) ∧
    (¬ distSq (p 4) (p 8) < PINCH_THRESHOLD ^ 2 →
      distSq (p 4) (p 12) < PINCH_THRESHOLD ^ 2 →
      classifyGesture p = GestureType.thumb_middle_pinch) := by
  constructor
  · intro h
    simp [classifyGesture, h]
  · intro h1 h2
    simp [classifyGesture, h1, h2]

/-- Witness for C2 at a landmark set where all pinch conditions hold at once:
every landmark coincides, and the index pinch still wins. -/
theorem C2_pinch_priority_witness :
    distSq (lm0 4) (lm0 8) < PINCH_THRESHOLD ^ 2 ∧
    classifyGesture lm0 = GestureType.thumb_index_pinch := by
  have h : distSq (lm0 4) (lm0 8) < PINCH_THRESHOLD ^ 2 := by
    norm_num [lm0, distSq, PINCH_THRESHOLD]
  exact ⟨h, (C2_pinch_priority lm0).1 h⟩

/-- C3 counterexample: the dispatcher's double-click branch does not reset
last_click_time to 0.  On c3frames the press at t=1 sets last_click_time = 1;
the pinch at t=1.2 emits DoubleClick but leaves last_click_time = 1, so the
third pinch at t=1.3 is again within the window and is folded into a second
DoubleClick — exactly what the claim says cannot happen. -/
theorem C3_counterexample :
    (run mc0 c3frames).2 =
      [Action.mouseDown, Action.mouseUp, Action.doubleClick, Action.doubleClick] ∧
    (run mc0 c3frames).1.last_click_time = 1 := by
  norm_num [run, process_gesture, drag_start, drag_end, end_pinch_drag, mc0,
    initState, c3frames, handle_left_click_or_drag, double_click,
    DOUBLE_CLICK_THRESHOLD]

/-- C3 amended: when an index pinch arrives with no pinch drag active and the
elapsed time since last_click_time is below the double-click window, the
dispatcher emits DoubleClick and leaves its state — last_click_time included —
unchanged (so a third pinch inside the window is folded into another
DoubleClick; the reset-to-0 guard exists only in the thumb recognizer); when
the elapsed time is at least the window, it starts a ButtonDown/drag cycle and
sets last_click_time to now. -/
theorem C3_amended (s : MCState) (now : ℚ) (mp : Option (ℚ × ℚ))
    (he : s.mouse_enabled = true) (hd : s.pinch_dragging = false) :
    (now - s.last_click_time < DOUBLE_CLICK_THRESHOLD →
      handle_left_click_or_drag s now mp = (s, [Action.doubleClick])) ∧
    (DOUBLE_CLICK_THRESHOLD ≤ now - s.last_click_time →
      handle_left_click_or_drag s now mp =
        ({ s with pinch_start_time := now, pinch_dragging := true,
                  last_click_time := now },
         [Action.mouseDown])) := by
  constructor
  · intro h
    simp [handle_left_click_or_drag, double_click, he, hd, h]
  · intro h
    simp [handle_left_click_or_drag, he, hd, not_lt.mpr h]

/-- Witness for C3 amended: from the initial state a pinch at t=0.1 is inside
the window measured from last_click_time = 0 and yields a bare DoubleClick. -/
theorem C3_amended_witness :
    handle_left_click_or_drag mc0 (1/10) none = (mc0, [Action.doubleClick]) :=
  (C3_amended mc0 (1/10) none rfl rfl).1
    (by norm_num [mc0, initState, DOUBLE_CLICK_THRESHOLD])

/-- C4: the claim says a press request while a button is already logically down
from a different gesture is ignored, so two ButtonDowns never occur without an
intervening ButtonUp.  The code violates this: on fist-then-index-pinch the
dispatcher emits mouseDown twice with no mouseUp, leaving both drag flags set. -/
theorem C4_double_press :
    (run mc0 c4frames).2 = [Action.mouseDown, Action.mouseDown] ∧
    (run mc0 c4frames).1.dragging = true ∧
    (run mc0 c4frames).1.pinch_dragging = true := by
  norm_num [run, process_gesture, drag_start, end_pinch_drag, mc0, initState,
    c4frames, handle_left_click_or_drag, double_click, DOUBLE_CLICK_THRESHOLD]

/-- C5 counterexample: the claim says the classifier emits the continuous
scroll gesture exactly when the thumb-tip/ring-tip distance is below the pinch
threshold.  On lmRingPinch that distance is 0, yet classification returns
cursor_point — the code has no thumb-ring pinch rule at all. -/
theorem C5_counterexample :
    distSq (lmRingPinch 4) (lmRingPinch 16) < PINCH_THRESHOLD ^ 2 ∧
    classifyGesture lmRingPinch = GestureType.cursor_point := by
  constructor
  · norm_num [lmRingPinch, distSq, PINCH_THRESHOLD]
  · norm_num [classifyGesture, lmRingPinch, distSq, PINCH_THRESHOLD,
      totalFingers, thumbUp, indexUp, middleUp, ringUp, pinkyUp, List.count]

/-- C5 amended: the classifier emits the continuous scroll symbol
thumb_scroll(v) exactly when neither pinch fires, the thumb is the only
extended finger, and the thumb angle v exceeds the scroll-angle threshold in
magnitude; there is no ring-pinch, no recorded anchor and no Start/Hold phase. -/
theorem C5_scroll_rule (p : Landmarks) (a : ℚ) :
    classifyGesture p = GestureType.thumb_scroll a ↔
      (¬ distSq (p 4) (p 8) < PINCH_THRESHOLD ^ 2 ∧
       ¬ distSq (p 4) (p 12) < PINCH_THRESHOLD ^ 2 ∧
       (totalFingers p = 1 ∧ thumbUp p = true ∧
        SCROLL_ANGLE_THRESHOLD < |getThumbAngle p|) ∧
       a = getThumbAngle p) := by
  simp only [classifyGesture]
  split_ifs with h1 h2 h3 h4 h5
  · simp [h1]
  · simp [h1, h2]
  · simp [h1, h2, h3, eq_comm]
  · simp [h3]
  · simp [h3]
  · simp [h3]

/-- C6: Pointer clamping.  Every Move emitted by move_mouse has integer
coordinates inside [0, screen_width-1] × [0, screen_height-1], for any rational
input position, including values at or beyond 1.0. -/
theorem C6_move_clamped (s : MCState) (px py : ℚ) (x y : ℤ)
    (hw : 1 ≤ s.screen_width) (hh : 1 ≤ s.screen_height)
    (hmem : Action.moveTo x y ∈ (move_mouse s (some (px, py))).2) :
    0 ≤ x ∧ x ≤ s.screen_width - 1 ∧ 0 ≤ y ∧ y ≤ s.screen_height - 1 := by
  simp only [move_mouse] at hmem
  split_ifs at hmem with h
  · simp at hmem
  · simp only [List.mem_singleton, Action.moveTo.injEq] at hmem
    obtain ⟨hx, hy⟩ := hmem
    subst hx
    subst hy
    refine ⟨le_max_left 0 _, max_le (by linarith) (min_le_right _ _),
      le_max_left 0 _, max_le (by linarith) (min_le_right _ _)⟩

/-- Witness for C6: on a 1920×1080 screen the out-of-range normalized position
(1.5, 1.0) is clamped to the emitted pixel (1919, 1079), which is in bounds. -/
theorem C6_move_clamped_witness :
    Action.moveTo 1919 1079 ∈ (move_mouse mc0 (some (3/2, 1))).2 ∧
    (0 ≤ (1919 : ℤ) ∧ (1919 : ℤ) ≤ mc0.screen_width - 1 ∧
     0 ≤ (1079 : ℤ) ∧ (1079 : ℤ) ≤ mc0.screen_height - 1) := by
  have hmem : Action.moveTo 1919 1079 ∈ (move_mouse mc0 (some (3/2, 1))).2 := by
    norm_num [move_mouse, mc0, initState, pyInt]
  exact ⟨hmem, C6_move_clamped mc0 (3/2) 1 1919 1079 (by norm_num [mc0, initState])
    (by norm_num [mc0, initState]) hmem⟩

/-- C7: Idempotence of release.  After any no-hand frame, a second consecutive
no-hand frame emits nothing and leaves the state unchanged; after any OpenHand
frame, a second OpenHand frame emits nothing and leaves the state unchanged —
in particular no duplicate ButtonUp is ever produced by either release path. -/
theorem C7_release_idempotent (s : MCState) (t1 t2 : ℚ) :
    (process_gesture (process_gesture s t1 none none).1 t2 none none
       = ((process_gesture s t1 none none).1, [])) ∧
    (process_gesture (process_gesture s t1 (some GestureType.open_hand) none).1
         t2 (some GestureType.open_hand) none
       = ((process_gesture s t1 (some GestureType.open_hand) none).1, [])) := by
  obtain ⟨w, h, me, lct, dr, pd, pst⟩ := s
  cases me <;> cases dr <;> cases pd <;>
    simp [process_gesture, end_pinch_drag, drag_end]

/-- C8 counterexample: the claim's formula is Scroll(-round(v * scroll_sensitivity)).
At payload v = 1/2 with scroll_sensitivity = 3 that formula gives -2, but the
code computes int(v * SCROLL_SENSITIVITY * 2) = 3 and emits Scroll(-3). -/
theorem C8_counterexample :
    (handle_scroll mc0 (1/2)).2 = [Action.scroll (-3)] ∧
    specScrollDelta (1/2) = -2 := by
  constructor
  · norm_num [handle_scroll, mc0, initState, pyInt, SCROLL_SENSITIVITY]
  · norm_num [specScrollDelta, SCROLL_SENSITIVITY, round_eq]

/-- C8 amended: for every scroll payload v the dispatcher emits
Scroll(-int(v * SCROLL_SENSITIVITY * 2)), with int() truncating toward zero;
nothing is emitted when the truncated magnitude is below 1; and when a Scroll
is emitted its value is positive exactly when v is negative (upward motion). -/
theorem C8_amended (s : MCState) (v : ℚ) (he : s.mouse_enabled = true) :
    (1 ≤ |pyInt (v * SCROLL_SENSITIVITY * 2)| →
      (handle_scroll s v).2 =
        [Action.scroll (-(pyInt (v * SCROLL_SENSITIVITY * 2)))] ∧
      (0 < -(pyInt (v * SCROLL_SENSITIVITY * 2)) ↔ v < 0)) ∧
    (¬ 1 ≤ |pyInt (v * SCROLL_SENSITIVITY * 2)| →
      (handle_scroll s v).2 = []) := by
  constructor
  · intro hmag
    refine ⟨by simp [handle_scroll, he, hmag], ?_⟩
    rcases le_or_lt 0 v with hv | hv
    · have hq : (0 : ℚ) ≤ v * SCROLL_SENSITIVITY * 2 := by
        have hs : (0 : ℚ) ≤ SCROLL_SENSITIVITY := by norm_num [SCROLL_SENSITIVITY]
        have h2 : (0 : ℚ) ≤ 2 := by norm_num
        exact mul_nonneg (mul_nonneg hv hs) h2
      have hk : 0 ≤ pyInt (v * SCROLL_SENSITIVITY * 2) := by
        rw [pyInt, if_pos hq]
        exact Int.floor_nonneg.mpr hq
      constructor
      · intro hpos
        linarith
      · intro hneg
        linarith
    · have hq : v * SCROLL_SENSITIVITY * 2 < 0 := by
        have hs : SCROLL_SENSITIVITY = 3 := rfl
        rw [hs]
        linarith
      have hk : pyInt (v * SCROLL_SENSITIVITY * 2) ≤ 0 := by
        rw [pyInt, if_neg (not_le.mpr hq)]
        exact Int.ceil_le.mpr (by exact_mod_cast hq.le)
      have hk2 : pyInt (v * SCROLL_SENSITIVITY * 2) < 0 := by
        rcases lt_or_eq_of_le hk with hlt | heq
        · exact hlt
        · rw [heq] at hmag
          norm_num at hmag
      exact ⟨fun _ => hv, fun _ => by linarith⟩
  · intro hmag
    simp [handle_scroll, he, hmag]

/-- Witness for C8 amended: at v = 1/2 the magnitude test passes, the emission
is Scroll(-int(3)) and the emitted value is not positive since v > 0. -/
theorem C8_amended_witness :
    1 ≤ |pyInt ((1/2 : ℚ) * SCROLL_SENSITIVITY * 2)| ∧
    (handle_scroll mc0 (1/2)).2 =
      [Action.scroll (-(pyInt ((1/2 : ℚ) * SCROLL_SENSITIVITY * 2)))] ∧
    (0 < -(pyInt ((1/2 : ℚ) * SCROLL_SENSITIVITY * 2)) ↔ (1/2 : ℚ) < 0) := by
  have hmag : 1 ≤ |pyInt ((1/2 : ℚ) * SCROLL_SENSITIVITY * 2)| := by
    norm_num [pyInt, SCROLL_SENSITIVITY]
  exact ⟨hmag, (C8_amended mc0 (1/2) rfl).1 hmag⟩

/-- C9: Degenerate-geometry safety.  The scroll-angle computation is total:
when the squared 2-D magnitude of the thumb direction vector is below 0.01²
it returns exactly 0, and its value always lies in [-1, 1]. -/
theorem C9_thumb_angle_total (p : Landmarks) :
    (((p 4).x - (p 2).x) ^ 2 + ((p 4).y - (p 2).y) ^ 2 < (1 / 100) ^ 2 →
      getThumbAngle p = 0) ∧
    -1 ≤ getThumbAngle p ∧ getThumbAngle p ≤ 1 := by
  refine ⟨fun h => ?_, ?_, ?_⟩ <;> simp only [getThumbAngle]
  · rw [if_pos h]
  · split_ifs with h
    · norm_num
    · exact le_max_left _ _
  · split_ifs with h
    · norm_num
    · exact max_le (by norm_num) (min_le_right _ _)

/-- Witness for C9 at the all-zero landmark set, whose thumb vector is
degenerate: the angle is exactly 0 and inside [-1, 1]. -/
theorem C9_thumb_angle_total_witness :
    getThumbAngle lm0 = 0 ∧ -1 ≤ getThumbAngle lm0 ∧ getThumbAngle lm0 ≤ 1 :=
  ⟨(C9_thumb_angle_total lm0).1 (by norm_num [lm0]),
   (C9_thumb_angle_total lm0).2⟩

/-- C10: Edge-triggered clicks.  The thumb classifier returns a click or
double-click symbol only when the thumb-index distance is below the touch
threshold, the previous frame was not touching, and at least click_cooldown has
elapsed since the last emitted click symbol; and on every frame where the touch
is merely sustained (was_touching already true) it returns cursor or idle. -/
theorem C10_edge_triggered (st : TGState) (p : Landmarks) (now : ℚ) :
    ((classify_thumb_gesture st p now).1 = ThumbSymbol.thumb_index_click ∨
      (classify_thumb_gesture st p now).1 = ThumbSymbol.thumb_index_double_click →
      distSq (p 4) (p 8) < touch_threshold ^ 2 ∧ st.was_touching = false ∧
        click_cooldown ≤ now - st.last_gesture_time) ∧
    (st.was_touching = true →
      (classify_thumb_gesture st p now).1 = ThumbSymbol.thumb_cursor ∨
      (classify_thumb_gesture st p now).1 = ThumbSymbol.idle) := by
  simp only [classify_thumb_gesture, decide_eq_true_eq]
  split_ifs with h1 h2 h3
  · obtain ⟨ht, hw, hc⟩ := h1
    refine ⟨fun _ => ⟨ht, hw, hc.le⟩, fun hwt => ?_⟩
    rw [hw] at hwt
    exact absurd hwt (by decide)
  · obtain ⟨ht, hw, hc⟩ := h1
    refine ⟨fun _ => ⟨ht, hw, hc.le⟩, fun hwt => ?_⟩
    rw [hw] at hwt
    exact absurd hwt (by decide)
  · refine ⟨fun hcl => ?_, fun _ => Or.inl rfl⟩
    rcases hcl with hcl | hcl <;> simp at hcl
  · refine ⟨fun hcl => ?_, fun _ => Or.inr rfl⟩
    rcases hcl with hcl | hcl <;> simp at hcl

/-- Witness for C10: from state tg1 a touching frame at t=0 is a fresh
transition past the cooldown, so the click consequence holds there. -/
theorem C10_edge_triggered_witness :
    distSq (lm0 4) (lm0 8) < touch_threshold ^ 2 ∧ tg1.was_touching = false ∧
      click_cooldown ≤ (0 : ℚ) - tg1.last_gesture_time :=
  (C10_edge_triggered tg1 lm0 0).1
    (Or.inl (by norm_num [classify_thumb_gesture, tg1, lm0, distSq,
      touch_threshold, click_cooldown, tg_double_click_threshold]))

end GestureControl
